import Mathlib

/-!
# Verification of `amnezia-config-reader` (`main.go`)

A shallow embedding of the Go program in `src/main.go`: a provisioning client
that decodes a `vpn://` subscription link (URL-safe base64 + 4-byte header +
zlib), generates an X25519 key pair, posts the public key to the decoded
endpoint, and substitutes the private key into the server-issued template.

Conventions of the embedding:
* Bytes are `Nat` values below 256 (byte slices are `List Nat`).
* Go runtime panics (slice bounds, failed type assertions) are explicit
  outcome constructors, since the Go code under study can run into them.
* Stdlib JSON *text* parsing is modelled at the value level: an inductive
  `Json` type stands for the parse result, and the `encoding/json`
  unmarshalling rules into the program's target types are embedded as
  functions on `Json` (missing field ⇒ zero value, `null` ⇒ zero value,
  wrong type ⇒ error, duplicate keys ⇒ last occurrence wins).
* The DEFLATE body decompression of `compress/zlib` (after a successful
  header check) is beyond what any stated property needs; `decode` stops at
  an explicit `reachedInflate` marker carrying the remaining compressed
  bytes, and properties about decompressed documents quantify over the
  resulting value directly.
-/

namespace AmneziaReader

/-! ## Go `strings.Replace(s, pat, rep, -1)` -/

/-- One scanning pass of Go `strings.Replace` with a non-empty pattern
`p :: ps`: replace the leftmost occurrence, continue after it (non
overlapping, left to right).  `fuel` bounds the recursion; every call site
supplies `fuel ≥ s.length`, which makes the result fuel-independent
(`goReplaceAux_fuel`). -/
def goReplaceAux (p : Char) (ps rep : List Char) : Nat → List Char → List Char
  | 0, s => s
  | _ + 1, [] => []
  | fuel + 1, c :: rest =>
    if (p :: ps).isPrefixOf (c :: rest) then
      rep ++ goReplaceAux p ps rep fuel (rest.drop ps.length)
    else
      c :: goReplaceAux p ps rep fuel rest

/-- Go `strings.Replace(s, pat, rep, -1)` on rune lists.  For an empty
pattern Go inserts `rep` before every rune and at the end. -/
def goReplaceAll (s pat rep : List Char) : List Char :=
  match pat with
  | [] => rep ++ (s.map (fun c => c :: rep)).flatten
  | p :: ps => goReplaceAux p ps rep s.length s

/-- Go `strings.Replace(s, pat, rep, -1)` on strings. -/
def goReplaceS (s pat rep : String) : String :=
  String.mk (goReplaceAll s.data pat.data rep.data)

/-- Go `strings.Contains` for a non-empty pattern, with the same scanning
structure as `goReplaceAux`: some suffix of `s` starts with `pat`. -/
def goContainsSub (pat : List Char) : List Char → Bool
  | [] => false
  | c :: rest => pat.isPrefixOf (c :: rest) || goContainsSub pat rest

/-! ## Base64 (Go `encoding/base64`)

`base64.URLEncoding.DecodeString` (URL-safe alphabet, mandatory `=`
padding, `\r`/`\n` ignored, trailing non-zero padding bits accepted — Go
only rejects them in `Strict()` mode) and `base64.StdEncoding.
EncodeToString`. -/

/-- Value of a character in the URL-safe base64 alphabet. -/
def b64UrlVal (c : Char) : Option Nat :=
  if 'A' ≤ c ∧ c ≤ 'Z' then some (c.toNat - 65)
  else if 'a' ≤ c ∧ c ≤ 'z' then some (c.toNat - 97 + 26)
  else if '0' ≤ c ∧ c ≤ '9' then some (c.toNat - 48 + 52)
  else if c = '-' then some 62
  else if c = '_' then some 63
  else none

/-- Decode base64 quantums of four characters; `=` padding is allowed only
in the final quantum, and data after a padded quantum is rejected, as in
Go. -/
def b64DecodeGroups : List Char → Option (List Nat)
  | [] => some []
  | a :: b :: c :: d :: rest =>
    match b64UrlVal a, b64UrlVal b with
    | some va, some vb =>
      if c = '=' then
        if d = '=' ∧ rest = [] then some [va * 4 + vb / 16] else none
      else
        match b64UrlVal c with
        | some vc =>
          if d = '=' then
            if rest = [] then some [va * 4 + vb / 16, vb % 16 * 16 + vc / 4]
            else none
          else
            match b64UrlVal d with
            | some vd =>
              (b64DecodeGroups rest).map
                (fun tail =>
                  (va * 4 + vb / 16) :: (vb % 16 * 16 + vc / 4) ::
                    (vc % 4 * 64 + vd) :: tail)
            | none => none
        | none => none
    | _, _ => none
  | _ => none

/-- Go `base64.URLEncoding.DecodeString`: newlines are ignored, the rest
must consist of whole quantums. -/
def b64UrlDecode (s : List Char) : Option (List Nat) :=
  b64DecodeGroups (s.filter (fun c => ¬(c = '\r' ∨ c = '\n')))

/-- Character of the standard base64 alphabet for a 6-bit value. -/
def b64StdChar (n : Nat) : Char :=
  if n < 26 then Char.ofNat (65 + n)
  else if n < 52 then Char.ofNat (97 + (n - 26))
  else if n < 62 then Char.ofNat (48 + (n - 52))
  else if n = 62 then '+'
  else '/'

/-- Go `base64.StdEncoding.EncodeToString` on a byte list. -/
def b64StdEncode : List Nat → List Char
  | [] => []
  | [b0] => [b64StdChar (b0 / 4), b64StdChar (b0 % 4 * 16), '=', '=']
  | [b0, b1] =>
    [b64StdChar (b0 / 4), b64StdChar (b0 % 4 * 16 + b1 / 16),
     b64StdChar (b1 % 16 * 4), '=']
  | b0 :: b1 :: b2 :: rest =>
    b64StdChar (b0 / 4) :: b64StdChar (b0 % 4 * 16 + b1 / 16) ::
      b64StdChar (b1 % 16 * 4 + b2 / 64) :: b64StdChar (b2 % 64) ::
      b64StdEncode rest

/-! ## zlib header check (Go `compress/zlib` `Reset`)

`zlib.NewReader` reads a 2-byte RFC 1950 header: compression method must
be 8 (deflate) and `CMF*256+FLG` must be a multiple of 31, else
`ErrHeader`; a set `FDICT` bit requires a 4-byte dictionary checksum and,
with no preset dictionary supplied, ends in `ErrDictionary`; missing bytes
surface the read error (`io.ErrUnexpectedEOF`). -/

inductive ZlibInitErr where
  | unexpectedEOF
  | errHeader
  | errDictionary
deriving DecidableEq

/-- Outcome of `zlib.NewReader` up to and including the header checks. -/
def zlibInit (bs : List Nat) : Except ZlibInitErr Unit :=
  match bs with
  | b0 :: b1 :: rest =>
    if b0 % 16 ≠ 8 ∨ (b0 * 256 + b1) % 31 ≠ 0 then .error .errHeader
    else if b1 / 32 % 2 = 1 then
      if rest.length < 4 then .error .unexpectedEOF else .error .errDictionary
    else .ok ()
  | _ => .error .unexpectedEOF

/-! ## `decode` (`main.go` lines 223–245) -/

/-- Result of the Go `decode` function.  The Go code returns `([]byte,
error)` but can also panic: `decodedBytes[4:]` is a runtime panic (`slice
bounds out of range`) when fewer than 4 bytes were decoded.  After a
successful zlib header check the remaining DEFLATE body is handed to
`io.ReadAll(zlibReader)`; that stdlib decompression is not modelled
further, so the embedding stops at `reachedInflate`. -/
inductive DecodeResult where
  | errBase64
  | panicSlice
  | errZlibInit (e : ZlibInitErr)
  | reachedInflate (compressed : List Nat)
deriving DecidableEq

/-- `decode`: remove every occurrence of `"vpn://"` (Go `strings.Replace`
with `n = -1`), URL-safe base64 decode, slice off the first 4 bytes
(panicking when fewer are present), then open a zlib reader. -/
def decode (s : String) : DecodeResult :=
  let s1 := goReplaceS s "vpn://" ""
  match b64UrlDecode s1.data with
  | none => .errBase64
  | some bytes =>
    if bytes.length < 4 then .panicSlice
    else
      match zlibInit (bytes.drop 4) with
      | .error e => .errZlibInit e
      | .ok _ => .reachedInflate (bytes.drop 4)

/-! ## X25519 (`golang.org/x/crypto/curve25519`, RFC 7748)

`GenerateX25519KeyPair` calls `curve25519.X25519(privateKey,
curve25519.Basepoint)`.  The library function is the RFC 7748 X25519
primitive: decode the scalar (clamping its bits), decode the u-coordinate
(masking the top bit), run the Montgomery ladder over GF(2^255 − 19), and
encode the result in 32 little-endian bytes.  The field is modelled as
`Nat` arithmetic with explicit reduction `% P`. -/

/-- The X25519 prime 2^255 − 19. -/
def P : Nat := 2 ^ 255 - 19

/-- Field addition modulo `P`. -/
def fadd (a b : Nat) : Nat := (a + b) % P

/-- Field subtraction modulo `P` (always non-negative in `Nat`). -/
def fsub (a b : Nat) : Nat := (a + (P - b % P)) % P

/-- Field multiplication modulo `P`. -/
def fmul (a b : Nat) : Nat := a * b % P

/-- Field squaring modulo `P`. -/
def fsq (a : Nat) : Nat := a * a % P

/-- Binary modular exponentiation, fuelled (the fuel bounds the bit length
of the exponent; 256 suffices for every exponent below 2^256). -/
def fpowAux : Nat → Nat → Nat → Nat → Nat
  | 0, _, _, acc => acc
  | fuel + 1, b, e, acc =>
    if e = 0 then acc
    else fpowAux fuel (fsq b) (e / 2) (if e % 2 = 1 then fmul acc b else acc)

/-- `b ^ e` in the field GF(P). -/
def fpow (b e : Nat) : Nat := fpowAux 256 (b % P) e (1 % P)

/-- X25519 scalar clamping, exactly the three Go statements
`privateKey[0] &= 248`, `privateKey[31] &= 127`, `privateKey[31] |= 64`
(`main.go` lines 188–190). -/
def clamp (k : List Nat) : List Nat :=
  let k1 := k.set 0 (k.getD 0 0 &&& 248)
  let k2 := k1.set 31 (k1.getD 31 0 &&& 127)
  k2.set 31 (k2.getD 31 0 ||| 64)

/-- Little-endian byte decoding (byte 0 is least significant). -/
def decodeLE (bs : List Nat) : Nat :=
  bs.foldr (fun b acc => b % 256 + 256 * acc) 0

/-- Little-endian encoding of a field element into 32 bytes. -/
def encodeLE32 (n : Nat) : List Nat :=
  (List.range 32).map (fun i => n / 256 ^ i % 256)

/-- Conditional swap of the Montgomery ladder. -/
def cswap (b : Bool) (x y : Nat) : Nat × Nat := if b then (y, x) else (x, y)

/-- One step of the RFC 7748 Montgomery ladder, processing scalar bit `t`.
The state is `(x2, z2, x3, z3, swap)`. -/
def ladderStep (x1 k : Nat) (st : Nat × Nat × Nat × Nat × Bool) (t : Nat) :
    Nat × Nat × Nat × Nat × Bool :=
  let (x2, z2, x3, z3, swap) := st
  let kt := k / 2 ^ t % 2 = 1
  let sw := xor swap kt
  let (x2, x3) := cswap sw x2 x3
  let (z2, z3) := cswap sw z2 z3
  let A := fadd x2 z2
  let AA := fsq A
  let B := fsub x2 z2
  let BB := fsq B
  let E := fsub AA BB
  let C := fadd x3 z3
  let D := fsub x3 z3
  let DA := fmul D A
  let CB := fmul C B
  let x3n := fsq (fadd DA CB)
  let z3n := fmul x1 (fsq (fsub DA CB))
  let x2n := fmul AA BB
  let z2n := fmul E (fadd AA (fmul 121665 E))
  (x2n, z2n, x3n, z3n, kt)

/-- The RFC 7748 X25519 ladder over bits 254 … 0, with the final
conditional swap and the projective-to-affine division `x2 / z2`. -/
def x25519Scalarmult (k u : Nat) : Nat :=
  let st := ((List.range 255).reverse).foldl (ladderStep u k) (1, 0, u, 1, false)
  let (x2, z2, x3, z3, swap) := st
  let (x2f, _) := cswap swap x2 x3
  let (z2f, _) := cswap swap z2 z3
  fmul x2f (fpow z2f (P - 2))

/-- `curve25519.X25519(scalar, point)`: the scalar is clamped (the library
clamps a copy internally; clamping is idempotent on the already-clamped
key the program passes), the u-coordinate has its top bit masked, and the
shared-secret x-coordinate is re-encoded little-endian. -/
def X25519 (scalar point : List Nat) : List Nat :=
  let k := decodeLE (clamp scalar)
  let u := decodeLE point % 2 ^ 255
  encodeLE32 (x25519Scalarmult k u)

/-- `curve25519.Basepoint`: u = 9. -/
def basepoint : List Nat := 9 :: List.replicate 31 0

/-- `GenerateX25519KeyPair` (`main.go` lines 179–203) on an explicit
32-byte random seed (the bytes `crypto/rand.Read` filled in): clamp the
seed in place, derive the public key with `curve25519.X25519(privateKey,
Basepoint)`, and return **(privateKeyBase64, publicKeyBase64)** — the
private key is the FIRST component, as in the Go signature. -/
def GenerateX25519KeyPair (seed : List Nat) : String × String :=
  let privateKey := clamp seed
  let publicKey := X25519 privateKey basepoint
  (String.mk (b64StdEncode privateKey), String.mk (b64StdEncode publicKey))

/-! ## JSON documents and `encoding/json` unmarshalling

JSON *text* parsing is modelled at the value level (`Json` is the parse
result).  The embedding of `json.Unmarshal` into the program's target
types follows the stdlib semantics the program relies on: an absent key
leaves the field at its zero value (no error), JSON `null` leaves the
target untouched, a type mismatch is an error, an unknown key is ignored,
and for duplicate keys the last occurrence wins. -/

inductive Json where
  | null
  | bool (b : Bool)
  | num (n : Int)
  | str (s : String)
  | arr (elems : List Json)
  | obj (fields : List (String × Json))

/-- Lookup of a key in a JSON object; the last binding wins, matching the
successive map assignments `encoding/json` performs. -/
def jLookup (fs : List (String × Json)) (key : String) : Option Json :=
  fs.foldl (fun acc kv => if kv.1 = key then some kv.2 else acc) none

inductive UnmarshalErr where
  | typeMismatch
deriving DecidableEq

/-- Unmarshal a JSON value into a Go `string` struct field selected by
`key`: absent or `null` gives the zero value `""`. -/
def getStringField (fs : List (String × Json)) (key : String) :
    Except UnmarshalErr String :=
  match jLookup fs key with
  | none => .ok ""
  | some .null => .ok ""
  | some (.str s) => .ok s
  | some _ => .error .typeMismatch

/-- `DecodedData` (`main.go` lines 50–53): tags `api_endpoint`,
`api_key`. -/
structure DecodedData where
  apiEndpoint : String
  apiKey : String
deriving DecidableEq

/-- `json.Unmarshal(data, &decodedData)` with `decodedData : DecodedData`
(`main.go` line 215).  A JSON document that is not an object (and not
`null`) is a type error; missing fields are silently left empty. -/
def unmarshalDecodedData (j : Json) : Except UnmarshalErr DecodedData :=
  match j with
  | .null => .ok ⟨"", ""⟩
  | .obj fs => do
    let e ← getStringField fs "api_endpoint"
    let k ← getStringField fs "api_key"
    return ⟨e, k⟩
  | _ => .error .typeMismatch

/-- `AWG` (`main.go` lines 41–43): tag `last_config`. -/
structure GoAWG where
  lastConfig : String
deriving DecidableEq

/-- `Container` (`main.go` lines 37–39): tag `awg`. -/
structure GoContainer where
  awg : GoAWG
deriving DecidableEq

/-- `Config` (`main.go` lines 33–35): tag `containers`. -/
structure GoConfig where
  containers : List GoContainer
deriving DecidableEq

/-- Unmarshal into `AWG`. -/
def unmarshalAWG (j : Json) : Except UnmarshalErr GoAWG :=
  match j with
  | .null => .ok ⟨""⟩
  | .obj fs => (getStringField fs "last_config").map (⟨·⟩)
  | _ => .error .typeMismatch

/-- Unmarshal into `Container`. -/
def unmarshalContainer (j : Json) : Except UnmarshalErr GoContainer :=
  match j with
  | .null => .ok ⟨⟨""⟩⟩
  | .obj fs =>
    match jLookup fs "awg" with
    | none => .ok ⟨⟨""⟩⟩
    | some ja => (unmarshalAWG ja).map (⟨·⟩)
  | _ => .error .typeMismatch

/-- `json.Unmarshal(decodedConfig, &config)` with `config : Config`
(`main.go` line 105). -/
def unmarshalConfig (j : Json) : Except UnmarshalErr GoConfig :=
  match j with
  | .null => .ok ⟨[]⟩
  | .obj fs =>
    match jLookup fs "containers" with
    | none => .ok ⟨[]⟩
    | some .null => .ok ⟨[]⟩
    | some (.arr xs) => (xs.mapM unmarshalContainer).map (⟨·⟩)
    | some _ => .error .typeMismatch
  | _ => .error .typeMismatch

/-- `json.Unmarshal(bytes, &lastConfig)` with `lastConfig :
map[string]interface` (`main.go` line 111): only an object (or `null`,
which leaves a nil map) is accepted. -/
def unmarshalMapSI (j : Json) : Except UnmarshalErr (List (String × Json)) :=
  match j with
  | .null => .ok []
  | .obj fs => .ok fs
  | _ => .error .typeMismatch

/-- `ResponseBody` (`main.go` lines 29–31): tag `config`. -/
structure GoResponseBody where
  config : String
deriving DecidableEq

/-- Unmarshal into `ResponseBody` (`main.go` line 170). -/
def unmarshalResponseBody (j : Json) : Except UnmarshalErr GoResponseBody :=
  match j with
  | .null => .ok ⟨""⟩
  | .obj fs => (getStringField fs "config").map (⟨·⟩)
  | _ => .error .typeMismatch

/-! ## `main` pipeline stages and `sendPostRequest` -/

/-- Outcome of a `main` stage: `fatal` models `log.Fatalf` (the program
exits with the formatted error), `panicked` models a Go runtime panic. -/
inductive Outcome (α : Type) where
  | ok (a : α)
  | fatal (msg : String)
  | panicked (msg : String)
deriving DecidableEq

/-- `RequestBody` (`main.go` lines 21–26). -/
structure RequestBody where
  publicKeyField : String
  osVersion : String
  appVersion : String
  uuid : String
deriving DecidableEq

/-- The request body `main` builds (`main.go` lines 84–89): the field
tagged `public_key` receives `pubKey`, the FIRST value returned by
`GenerateX25519KeyPair` — which is `privateKeyBase64` in that function's
own signature.  `uuid.New().String()` is an input. -/
def mainRequestBody (seed : List Nat) (uuidStr : String) : RequestBody :=
  ⟨(GenerateX25519KeyPair seed).1, "macOS", "4.8.2.3", uuidStr⟩

/-- The string `main` substitutes into the template (`main.go` lines 78,
119): the variable named `privateKey`, bound to the SECOND value returned
by `GenerateX25519KeyPair` — which is `publicKeyBase64` in that function's
own signature. -/
def mainPrivateKeyVar (seed : List Nat) : String :=
  (GenerateX25519KeyPair seed).2

/-- Errors of `sendPostRequest` (`main.go` lines 125–176).  Body
marshalling and `http.NewRequest` cannot fail for the values `main`
passes, and a transport failure means no response exists, so those paths
are not modelled. -/
inductive SendErr where
  | emptyURL
  | emptyAPIKey
  | serverRejected (status : Nat) (body : String)
  | malformedResponse
deriving DecidableEq

/-- `sendPostRequest` given the server's response (`status`, raw
`bodyText`, and `bodyDoc`, the value-level JSON parse of `bodyText` —
`none` when the body is not valid JSON): validate inputs, reject any
status outside [200, 300) carrying status and raw body, else unmarshal
the body into `ResponseBody` (`main.go` lines 127–132, 159–173). -/
def sendPostRequestModel (url apiKey : String) (status : Nat)
    (bodyText : String) (bodyDoc : Option Json) :
    Except SendErr GoResponseBody :=
  if url = "" then .error .emptyURL
  else if apiKey = "" then .error .emptyAPIKey
  else if status < 200 ∨ 300 ≤ status then .error (.serverRejected status bodyText)
  else
    match bodyDoc with
    | none => .error .malformedResponse
    | some j =>
      match unmarshalResponseBody j with
      | .error _ => .error .malformedResponse
      | .ok rb => .ok rb

/-- `main` after the `sendPostRequest` call (`main.go` lines 95–98): any
error is `log.Fatalf`, otherwise the rest of `main` (`k`) runs on the
response. -/
def mainAfterRequest (r : Except SendErr GoResponseBody)
    (k : GoResponseBody → Outcome String) : Outcome String :=
  match r with
  | .error _ => .fatal "Error"
  | .ok rb => k rb

/-- The placeholder token of the templated configuration
(`main.go` line 119). -/
def placeholderToken : String := "$WIREGUARD_CLIENT_PRIVATE_KEY"

/-- `main.go` line 119 on the parsed `lastConfig` map:
`lastConfig["config"].(string)` is an UNCHECKED type assertion — a missing
key yields an untyped `nil` and a non-string value has the wrong dynamic
type, and either way the assertion panics (`interface conversion`).  On a
string it runs `strings.Replace(template, token, privateKeyVar, -1)`. -/
def mainSubstituteStage (lastConfig : List (String × Json))
    (privateKeyVar : String) : Outcome String :=
  match jLookup lastConfig "config" with
  | some (.str s) => .ok (goReplaceS s placeholderToken privateKeyVar)
  | _ => .panicked "interface conversion"

/-- `main.go` lines 104–120 given `decodedConfig` (the value-level JSON
parse of the bytes `decode(responseBody.Config)` produced) and
`parseJsonText` (the value-level stdlib JSON parser applied to the
`last_config` string): unmarshal `Config`, take `config.Containers[0]`
(an unguarded index — PANIC on an empty slice), parse and unmarshal the
nested `last_config` document, then substitute the key into the
template. -/
def mainAssembleStage (decodedConfig : Json)
    (parseJsonText : String → Option Json) (privateKeyVar : String) :
    Outcome String :=
  match unmarshalConfig decodedConfig with
  | .error _ => .fatal "Error"
  | .ok c =>
    match c.containers with
    | [] => .panicked "index out of range"
    | c0 :: _ =>
      match parseJsonText c0.awg.lastConfig with
      | none => .fatal "Error"
      | some lcDoc =>
        match unmarshalMapSI lcDoc with
        | .error _ => .fatal "Error"
        | .ok m => mainSubstituteStage m privateKeyVar

/-! ## Concrete evaluation constants -/

/-- The all-zero 32-byte seed, used to evaluate the key pipeline at a
concrete random draw. -/
def zeroSeed : List Nat := List.replicate 32 0

/-- Standard base64 of `clamp zeroSeed` — the base64 text of the
generated PRIVATE key for the all-zero seed. -/
def zeroPrivB64 : String := "AAAAAAAAAAAAAAAAAAAAAAAAAAAAAAAAAAAAAAAAAEA="

/-- Standard base64 of `X25519 (clamp zeroSeed) basepoint` — the base64
text of the generated PUBLIC key for the all-zero seed (cross-checked
against an independent RFC 7748 implementation). -/
def zeroPubB64 : String := "L+V9o0fNYkMVKNqsX7spBzD/9oSvxM/C7ZCZX1jLO3Q="

/-! ## Helper lemmas -/

/-- `goReplaceAux` does not depend on the fuel as long as the fuel covers
the length of the list being scanned. -/
theorem goReplaceAux_fuel (p : Char) (ps rep : List Char) :
    ∀ f₁ : Nat, ∀ s : List Char, ∀ f₂ : Nat, s.length ≤ f₁ → s.length ≤ f₂ →
      goReplaceAux p ps rep f₁ s = goReplaceAux p ps rep f₂ s := by
  intro f₁
  induction f₁ with
  | zero =>
    intro s f₂ h₁ h₂
    have hs : s = [] := List.eq_nil_of_length_eq_zero (Nat.le_zero.mp h₁)
    subst hs
    cases f₂ <;> rfl
  | succ f ih =>
    intro s f₂ h₁ h₂
    match s, f₂ with
    | [], 0 => rfl
    | [], g + 1 => rfl
    | c :: rest, 0 => simp at h₂
    | c :: rest, g + 1 =>
      simp only [List.length_cons, Nat.succ_le_succ_iff] at h₁ h₂
      by_cases hpre : (p :: ps).isPrefixOf (c :: rest)
      · simp only [goReplaceAux, hpre, if_true]
        have hd : (rest.drop ps.length).length ≤ rest.length := by
          simp [List.length_drop]
        exact congrArg (rep ++ ·)
          (ih (rest.drop ps.length) g (le_trans hd h₁) (le_trans hd h₂))
      · simp only [goReplaceAux, hpre, if_false]
        exact congrArg (c :: ·) (ih rest g h₁ h₂)

/-- A scan that finds no occurrence of the pattern leaves the list
unchanged. -/
theorem goReplaceAux_of_not_contains (p : Char) (ps rep : List Char) :
    ∀ s : List Char, goContainsSub (p :: ps) s = false →
      goReplaceAux p ps rep s.length s = s := by
  intro s
  induction s with
  | nil => intro _; rfl
  | cons c rest ih =>
    intro h
    simp only [goContainsSub, Bool.or_eq_false_iff] at h
    obtain ⟨h₁, h₂⟩ := h
    simp only [List.length_cons, goReplaceAux, h₁, Bool.false_eq_true, if_false]
    exact congrArg (c :: ·) (ih h₂)

/-- Reading back the position just written by `List.set`. -/
theorem getD_set_self :
    ∀ (l : List Nat) (i v : Nat), i < l.length → (l.set i v).getD i 0 = v := by
  intro l
  induction l with
  | nil => intro i v h; simp at h
  | cons a t ih =>
    intro i v h
    cases i with
    | zero => rfl
    | succ n =>
      simp only [List.set, List.getD, List.get?_cons_succ] at *
      exact ih n v (by simpa using h)

/-- `List.set` leaves other positions unchanged. -/
theorem getD_set_ne :
    ∀ (l : List Nat) (i j v : Nat), i ≠ j → (l.set i v).getD j 0 = l.getD j 0 := by
  intro l
  induction l with
  | nil => intro i j v _; cases i <;> rfl
  | cons a t ih =>
    intro i j v hij
    cases i with
    | zero =>
      cases j with
      | zero => exact absurd rfl hij
      | succ m => rfl
    | succ n =>
      cases j with
      | zero => rfl
      | succ m =>
        simp only [List.set, List.getD, List.get?_cons_succ]
        exact ih n m v (fun h => hij (by rw [h]))

/-- An in-bounds `getD` is a member of the list. -/
theorem getD_mem (l : List Nat) (i : Nat) (h : i < l.length) :
    l.getD i 0 ∈ l := by
  rw [List.getD_eq_getElem l 0 h]
  exact List.getElem_mem h

set_option maxRecDepth 40000

/-- Clearing the low three bits: `b &&& 248` is divisible by 8. -/
theorem land248_mod8 : ∀ b < 256, (b &&& 248) % 8 = 0 := by decide

/-- `(b &&& 127) ||| 64` clears bit 7 and sets bit 6. -/
theorem clamp_byte31_bits :
    ∀ b < 256, ((b &&& 127) ||| 64) < 128 ∧ (((b &&& 127) ||| 64) &&& 64) = 64 := by
  decide

/-- Byte 0 after clamping a 32-byte seed. -/
theorem clamp_getD_zero (seed : List Nat) (h : seed.length = 32) :
    (clamp seed).getD 0 0 = seed.getD 0 0 &&& 248 := by
  simp only [clamp]
  rw [getD_set_ne _ 31 0 _ (by omega), getD_set_ne _ 31 0 _ (by omega)]
  exact getD_set_self seed 0 _ (by omega)

/-- Byte 31 after clamping a 32-byte seed. -/
theorem clamp_getD_31 (seed : List Nat) (h : seed.length = 32) :
    (clamp seed).getD 31 0 = (seed.getD 31 0 &&& 127) ||| 64 := by
  have e1 : (seed.set 0 (seed.getD 0 0 &&& 248)).getD 31 0 = seed.getD 31 0 :=
    getD_set_ne seed 0 31 _ (by omega)
  simp only [clamp]
  rw [getD_set_self _ 31 _ (by simp [List.length_set, h])]
  rw [getD_set_self _ 31 _ (by simp [List.length_set, h])]
  rw [e1]

/-- A scan of `decode`'s marker-removal stage over text with no
occurrence of `"vpn://"` leaves the text unchanged. -/
theorem vpnStage1_no_occurrence (d : List Char)
    (h : goContainsSub "vpn://".data d = false) :
    goReplaceAll d "vpn://".data [] = d :=
  goReplaceAux_of_not_contains 'v' "pn://".data [] d h

/-- `decode`'s marker-removal stage removes a leading `"vpn://"` and then
behaves on the remainder exactly as on the bare remainder. -/
theorem vpnStage1_leading (d : List Char) :
    goReplaceAll ("vpn://".data ++ d) "vpn://".data [] =
      goReplaceAll d "vpn://".data [] := by
  have h6 : "vpn://".data.length = 6 := rfl
  have hlen : ("vpn://".data ++ d).length = d.length + 6 := by
    rw [List.length_append, h6]
    omega
  have hpre : ("vpn://".data).isPrefixOf ("vpn://".data ++ d) = true := by
    rw [List.isPrefixOf_iff_prefix]
    exact List.prefix_append _ _
  have step : goReplaceAux 'v' "pn://".data [] (d.length + 5 + 1)
      ('v' :: ("pn://".data ++ d)) =
      if ("vpn://".data).isPrefixOf ("vpn://".data ++ d) then
        [] ++ goReplaceAux 'v' "pn://".data [] (d.length + 5)
          (("pn://".data ++ d).drop "pn://".data.length)
      else
        'v' :: goReplaceAux 'v' "pn://".data [] (d.length + 5)
          ("pn://".data ++ d) := rfl
  show goReplaceAux 'v' "pn://".data [] ("vpn://".data ++ d).length
      ("vpn://".data ++ d) = goReplaceAux 'v' "pn://".data [] d.length d
  rw [hlen]
  rw [show (d.length + 6 : Nat) = d.length + 5 + 1 from rfl]
  rw [show ("vpn://".data ++ d : List Char) = 'v' :: ("pn://".data ++ d)
    from rfl]
  rw [step, if_pos hpre, List.drop_left, List.nil_append]
  exact goReplaceAux_fuel 'v' "pn://".data [] (d.length + 5) d d.length
    (by omega) (by omega)

/-! ## Claim theorems -/

/-- **C1.**  The claim says the final configuration contains the generated
private key text verbatim.  It does not: `main.go` line 78 destructures
`GenerateX25519KeyPair()` — whose return order is `(privateKeyBase64,
publicKeyBase64, err)` — as `pubKey, privateKey, err`, so the variable
substituted for `$WIREGUARD_CLIENT_PRIVATE_KEY` at line 119 holds the
base64 PUBLIC key.  Evaluated at the all-zero seed and the template
`"key = $WIREGUARD_CLIENT_PRIVATE_KEY"`: the substituted text is the
public key's base64, the assembled text contains it, and the private
key's base64 occurs nowhere in the assembled text. -/
theorem C1_final_config_lacks_private_key :
    mainPrivateKeyVar zeroSeed = zeroPubB64 ∧
    String.mk (b64StdEncode (clamp zeroSeed)) = zeroPrivB64 ∧
    mainSubstituteStage
        [("config", Json.str "key = $WIREGUARD_CLIENT_PRIVATE_KEY")]
        (mainPrivateKeyVar zeroSeed) =
      .ok "key = L+V9o0fNYkMVKNqsX7spBzD/9oSvxM/C7ZCZX1jLO3Q=" ∧
    goContainsSub zeroPubB64.data
      "key = L+V9o0fNYkMVKNqsX7spBzD/9oSvxM/C7ZCZX1jLO3Q=".data = true ∧
    goContainsSub zeroPrivB64.data
      "key = L+V9o0fNYkMVKNqsX7spBzD/9oSvxM/C7ZCZX1jLO3Q=".data = false :=
  ⟨rfl, rfl, rfl, rfl, rfl⟩

/-- **C2.**  The claim says the request's `public_key` field carries the
base64 X25519 public key, not the private key.  Because of the swapped
destructuring at `main.go` line 78, `pubKey` is the FIRST return value of
`GenerateX25519KeyPair`, i.e. `privateKeyBase64`, so the request sends
the base64 of the clamped PRIVATE scalar; at the all-zero seed that text
differs from the base64 of the derived public key.  The fixed labels of
the claim are as stated. -/
theorem C2_request_sends_private_key :
    (mainRequestBody zeroSeed "some-uuid").publicKeyField =
      String.mk (b64StdEncode (clamp zeroSeed)) ∧
    (mainRequestBody zeroSeed "some-uuid").publicKeyField = zeroPrivB64 ∧
    String.mk (b64StdEncode (X25519 (clamp zeroSeed) basepoint)) = zeroPubB64 ∧
    zeroPrivB64 ≠ zeroPubB64 ∧
    (mainRequestBody zeroSeed "some-uuid").osVersion = "macOS" ∧
    (mainRequestBody zeroSeed "some-uuid").appVersion = "4.8.2.3" :=
  ⟨rfl, rfl, rfl, by decide, rfl, rfl⟩

/-- **C3.**  The claim says a decoded payload of fewer than 4 bytes gives
a `TruncatedPayloadError` and does not crash.  The code has no such
check: `decodedBytes[4:]` at `main.go` line 233 panics (slice bounds out
of range) whenever the base64 decode produced fewer than 4 bytes.
Evaluated at inputs decoding to 0, 1 and 3 bytes. -/
theorem C3_short_payload_panics :
    b64UrlDecode "".data = some [] ∧ decode "" = .panicSlice ∧
    b64UrlDecode "AA==".data = some [0] ∧ decode "AA==" = .panicSlice ∧
    b64UrlDecode "AAAA".data = some [0, 0, 0] ∧ decode "AAAA" = .panicSlice :=
  ⟨rfl, rfl, rfl, rfl, rfl, rfl⟩

/-- **C4.**  The claim says an absent or empty `containers` list yields
`AssemblyError(NoContainers)` and that the first-container access is
guarded.  It is not: `config.Containers[0]` at `main.go` line 111 is an
unguarded index, and both the empty JSON object (absent list) and an
explicit empty list make the assembly stage panic, for every private-key
text and every parse of the nested document. -/
theorem C4_empty_containers_panics
    (parseJsonText : String → Option Json) (pk : String) :
    mainAssembleStage (Json.obj []) parseJsonText pk =
      .panicked "index out of range" ∧
    mainAssembleStage (Json.obj [("containers", Json.arr [])]) parseJsonText pk =
      .panicked "index out of range" :=
  ⟨rfl, rfl⟩

/-- **C6.**  The claim says a nested template document without a string
`config` field yields `AssemblyError(MissingConfigField)` rather than
crashing.  The code instead performs the unchecked type assertion
`lastConfig["config"].(string)` at `main.go` line 119, which panics both
when the key is absent and when its value is not a string, for every
private-key text. -/
theorem C6_missing_config_field_panics (pk : String) :
    mainSubstituteStage [] pk = .panicked "interface conversion" ∧
    mainSubstituteStage [("config", Json.num 3)] pk =
      .panicked "interface conversion" ∧
    mainSubstituteStage [("other", Json.str "x")] pk =
      .panicked "interface conversion" :=
  ⟨rfl, rfl, rfl⟩

/-- **C5, counterexample.**  The claim says a decoded link document
lacking `api_endpoint`/`api_key` makes parsing fail with a
`StructureError` and that `ProvisioningParams` with empty fields are
never produced.  `encoding/json` leaves absent fields at their zero
value, so unmarshalling the empty object succeeds with two empty
strings. -/
theorem C5_counterexample :
    unmarshalDecodedData (Json.obj []) = .ok ⟨"", ""⟩ := rfl

/-- **C5, amended.**  Absent fields do not fail the parse: the unmarshal
returns empty strings; a wrongly-typed field does fail it; and the empty
endpoint is only rejected later, by `sendPostRequest`'s own emptiness
validation (`main.go` lines 127–129). -/
theorem C5_amended :
    (∀ fs, jLookup fs "api_endpoint" = none → jLookup fs "api_key" = none →
      unmarshalDecodedData (Json.obj fs) = .ok ⟨"", ""⟩) ∧
    (∀ fs n, jLookup fs "api_endpoint" = some (Json.num n) →
      unmarshalDecodedData (Json.obj fs) = .error .typeMismatch) ∧
    (∀ apiKey status bodyText bodyDoc,
      sendPostRequestModel "" apiKey status bodyText bodyDoc =
        .error .emptyURL) := by
  refine ⟨?_, ?_, ?_⟩
  · intro fs h1 h2
    simp only [unmarshalDecodedData, getStringField, h1, h2]
    rfl
  · intro fs n h
    simp only [unmarshalDecodedData, getStringField, h]
    rfl
  · intro apiKey status bodyText bodyDoc
    rfl

/-- **C5, witness.**  The amended statement evaluated at the empty
object, at an object with a numeric `api_endpoint`, and at the empty
URL. -/
theorem C5_witness :
    unmarshalDecodedData (Json.obj []) = .ok ⟨"", ""⟩ ∧
    unmarshalDecodedData (Json.obj [("api_endpoint", Json.num 7)]) =
      .error .typeMismatch ∧
    sendPostRequestModel "" "K" 200 "" none = .error .emptyURL :=
  ⟨C5_amended.1 [] rfl rfl,
   C5_amended.2.1 [("api_endpoint", Json.num 7)] 7 rfl,
   C5_amended.2.2 "K" 200 "" none⟩

/-- **C7, counterexample.**  The claim says the scheme marker is removed
only as a leading prefix and that an input without the prefix is base64
decoded as-is.  `decode` instead runs `strings.Replace(s, "vpn://", "",
-1)` (`main.go` line 224): the input below does not start with the
marker, yet its interior occurrence is removed, and the input as-is is
not valid URL-safe base64 (so the claim would predict an encoding error)
while the code reaches the zlib stage. -/
theorem C7_counterexample :
    "vpn://".data.isPrefixOf "AAAAvpn://AAAA".data = false ∧
    goReplaceS "AAAAvpn://AAAA" "vpn://" "" = "AAAAAAAA" ∧
    ("AAAAAAAA" : String) ≠ "AAAAvpn://AAAA" ∧
    b64UrlDecode "AAAAvpn://AAAA".data = none ∧
    decode "AAAAvpn://AAAA" = .errZlibInit .errHeader :=
  ⟨rfl, rfl, by decide, rfl, rfl⟩

/-- **C7, amended.**  The marker removal applies to EVERY occurrence of
the literal `"vpn://"` anywhere in the input; when the substring occurs
nowhere the text goes to base64 decoding unchanged (absence is not an
error), and a leading occurrence is removed exactly as the claim
says. -/
theorem C7_amended (s : String) :
    (goContainsSub "vpn://".data s.data = false →
      goReplaceS s "vpn://" "" = s) ∧
    goReplaceS ("vpn://" ++ s) "vpn://" "" = goReplaceS s "vpn://" "" := by
  obtain ⟨d⟩ := s
  constructor
  · intro h
    show String.mk (goReplaceAll d "vpn://".data []) = String.mk d
    exact congrArg String.mk (vpnStage1_no_occurrence d h)
  · show String.mk (goReplaceAll ("vpn://".data ++ d) "vpn://".data []) =
      String.mk (goReplaceAll d "vpn://".data [])
    exact congrArg String.mk (vpnStage1_leading d)

/-- **C7, witness.**  The amended statement at `"abc"`: no occurrence,
input unchanged; prefixed input decodes like the bare input. -/
theorem C7_witness :
    goReplaceS "abc" "vpn://" "" = "abc" ∧
    goReplaceS ("vpn://" ++ "abc") "vpn://" "" = goReplaceS "abc" "vpn://" "" :=
  ⟨(C7_amended "abc").1 (by rfl), (C7_amended "abc").2⟩

/-- **C8.**  Clamping (`main.go` lines 188–190) clears the low 3 bits of
byte 0, clears the high bit of byte 31 and sets its second-highest bit;
and the public key returned by `GenerateX25519KeyPair` is the X25519
scalar multiplication of the clamped private key with the curve's base
point (the call at line 193). -/
theorem C8_clamping_and_public_key (seed : List Nat)
    (h32 : seed.length = 32) (hb : ∀ b ∈ seed, b < 256) :
    (clamp seed).getD 0 0 % 8 = 0 ∧
    (clamp seed).getD 31 0 < 128 ∧
    ((clamp seed).getD 31 0 &&& 64) = 64 ∧
    (GenerateX25519KeyPair seed).2 =
      String.mk (b64StdEncode (X25519 (clamp seed) basepoint)) := by
  have hb0 : seed.getD 0 0 < 256 := hb _ (getD_mem seed 0 (by omega))
  have hb31 : seed.getD 31 0 < 256 := hb _ (getD_mem seed 31 (by omega))
  refine ⟨?_, ?_, ?_, rfl⟩
  · rw [clamp_getD_zero seed h32]
    exact land248_mod8 _ hb0
  · rw [clamp_getD_31 seed h32]
    exact (clamp_byte31_bits _ hb31).1
  · rw [clamp_getD_31 seed h32]
    exact (clamp_byte31_bits _ hb31).2

/-- **C8, witness.**  The clamping facts evaluated at the all-zero
seed. -/
theorem C8_witness :
    (clamp zeroSeed).getD 0 0 % 8 = 0 ∧
    (clamp zeroSeed).getD 31 0 < 128 ∧
    ((clamp zeroSeed).getD 31 0 &&& 64) = 64 ∧
    (GenerateX25519KeyPair zeroSeed).2 =
      String.mk (b64StdEncode (X25519 (clamp zeroSeed) basepoint)) :=
  C8_clamping_and_public_key zeroSeed (by decide) (by decide)

/-- **C9.**  With non-empty endpoint and credential: a status outside
[200, 300) makes `sendPostRequest` return the rejection error carrying
the status code and the raw body text (`main.go` lines 159–162), and
`main` then dies on `log.Fatalf` no matter how the rest of the program
would continue — no decode or assembly runs; a status inside the range
never produces that rejection error. -/
theorem C9_server_rejection (url apiKey : String) (status : Nat)
    (bodyText : String) (bodyDoc : Option Json)
    (hu : url ≠ "") (hk : apiKey ≠ "") :
    ((status < 200 ∨ 300 ≤ status) →
      sendPostRequestModel url apiKey status bodyText bodyDoc =
        .error (.serverRejected status bodyText) ∧
      ∀ k, mainAfterRequest
          (sendPostRequestModel url apiKey status bodyText bodyDoc) k =
        .fatal "Error") ∧
    (200 ≤ status → status < 300 →
      ∀ st b, sendPostRequestModel url apiKey status bodyText bodyDoc ≠
        .error (.serverRejected st b)) := by
  constructor
  · intro hs
    have he : sendPostRequestModel url apiKey status bodyText bodyDoc =
        .error (.serverRejected status bodyText) := by
      unfold sendPostRequestModel
      rw [if_neg hu, if_neg hk, if_pos hs]
    exact ⟨he, fun k => by rw [he]; rfl⟩
  · intro h1 h2 st b
    unfold sendPostRequestModel
    rw [if_neg hu, if_neg hk, if_neg (by omega : ¬(status < 200 ∨ 300 ≤ status))]
    cases bodyDoc with
    | none => simp
    | some j =>
      cases hr : unmarshalResponseBody j with
      | error e => simp [hr]
      | ok rb => simp [hr]

/-- **C9, witness.**  The mocked 403/`"forbidden"` response of the spec's
test list. -/
theorem C9_witness :
    sendPostRequestModel "https://endpoint" "K" 403 "forbidden" none =
      .error (.serverRejected 403 "forbidden") :=
  ((C9_server_rejection "https://endpoint" "K" 403 "forbidden" none
    (by decide) (by decide)).1 (by omega)).1

/-- **C10.**  When the base64 stage yields exactly 4 bytes, the slice
`decodedBytes[4:]` is in bounds (no panic, no truncation handling) and
empty, and `zlib.NewReader` then fails reading its 2-byte header, so
`decode` returns the zlib-reader-creation error — a decompression-stage
error, not a success and not a base64 error. -/
theorem C10_four_byte_payload (s : String) (bs : List Nat)
    (hdec : b64UrlDecode (goReplaceS s "vpn://" "").data = some bs)
    (hlen : bs.length = 4) :
    decode s = .errZlibInit .unexpectedEOF := by
  simp only [decode]
  rw [hdec]
  show (if bs.length < 4 then DecodeResult.panicSlice
    else match zlibInit (bs.drop 4) with
      | .error e => DecodeResult.errZlibInit e
      | .ok _ => DecodeResult.reachedInflate (bs.drop 4)) =
    DecodeResult.errZlibInit ZlibInitErr.unexpectedEOF
  rw [if_neg (by omega : ¬bs.length < 4)]
  rw [List.drop_eq_nil_of_le (by omega : bs.length ≤ 4)]
  rfl

/-- **C10, witness.**  `"AAAAAA=="` decodes to four zero bytes and
`decode` fails at zlib-reader creation. -/
theorem C10_witness :
    b64UrlDecode (goReplaceS "AAAAAA==" "vpn://" "").data = some [0, 0, 0, 0] ∧
    decode "AAAAAA==" = .errZlibInit .unexpectedEOF :=
  ⟨rfl, C10_four_byte_payload "AAAAAA==" [0, 0, 0, 0] rfl rfl⟩

end AmneziaReader
